import Mathlib

/-
  Verification of the ibeacon/jubilee home-lighting controller.

  Shallow embedding of the repository's core modules:
  - jubilee/lights.py : DaylightSensor, UKTimeZone, Controller, action handler
  - jubilee/ibeacon.py : PresenceSensor (registration, sighting handling, sweep loop)

  Python datetimes are modelled to one-second granularity; instants handled by
  the presence sensor are modelled as integer seconds.
-/

namespace Jubilee

/-- Model of a Python naive datetime, to one-second granularity. -/
structure PyDateTime where
  year : Nat
  month : Nat
  day : Nat
  hour : Nat
  minute : Nat
  second : Nat
deriving DecidableEq, Repr

/-- Python datetime comparison is lexicographic on the fields. -/
def dtLtb (a b : PyDateTime) : Bool :=
  if a.year ≠ b.year then decide (a.year < b.year)
  else if a.month ≠ b.month then decide (a.month < b.month)
  else if a.day ≠ b.day then decide (a.day < b.day)
  else if a.hour ≠ b.hour then decide (a.hour < b.hour)
  else if a.minute ≠ b.minute then decide (a.minute < b.minute)
  else decide (a.second < b.second)

/-- Python datetime less-or-equal. -/
def dtLeb (a b : PyDateTime) : Bool :=
  dtLtb a b || decide (a = b)

/-- Days since 0000-03-01 in the proleptic Gregorian calendar
(civil-from-date algorithm, used to model Python's date arithmetic). -/
def daysN (y m d : Nat) : Nat :=
  let y' := if m ≤ 2 then y - 1 else y
  let era := y' / 400
  let yoe := y' % 400
  let mp := (m + 9) % 12
  let doy := (153 * mp + 2) / 5 + d - 1
  let doe := yoe * 365 + yoe / 4 - yoe / 100 + doy
  era * 146097 + doe

/-- Inverse of daysN: recover (year, month, day) from a day count. -/
def civilFromDays (z : Nat) : Nat × Nat × Nat :=
  let era := z / 146097
  let doe := z % 146097
  let yoe := (doe - doe / 1460 + doe / 36524 - doe / 146096) / 365
  let y := yoe + era * 400
  let doy := doe - (365 * yoe + yoe / 4 - yoe / 100)
  let mp := (5 * doy + 2) / 153
  let d := doy - (153 * mp + 2) / 5 + 1
  let m := if mp < 10 then mp + 3 else mp - 9
  (if m ≤ 2 then y + 1 else y, m, d)

/-- Python date.weekday(): Monday is 0, Sunday is 6.
0000-03-01 of the proleptic Gregorian calendar is a Wednesday (= 2). -/
def pyWeekday (y m d : Nat) : Nat :=
  (daysN y m d + 2) % 7

/-- Number of days in a month (Gregorian). -/
def daysInMonth (y m : Nat) : Nat :=
  if m = 2 then
    if y % 4 = 0 ∧ (y % 100 ≠ 0 ∨ y % 400 = 0) then 29 else 28
  else if m = 4 ∨ m = 6 ∨ m = 9 ∨ m = 11 then 30
  else 31

/-- Total minutes since 0000-03-01 00:00. -/
def toAbsMinutes (t : PyDateTime) : Nat :=
  daysN t.year t.month t.day * 1440 + t.hour * 60 + t.minute

/-- Python datetime plus timedelta(minutes = k); the seconds field is carried
through unchanged (all offsets in the code are whole minutes). -/
def addMinutes (t : PyDateTime) (k : Int) : PyDateTime :=
  let total : Int := (toAbsMinutes t : Int) + k
  let tn := total.toNat
  let days := tn / 1440
  let rem := tn % 1440
  let c := civilFromDays days
  ⟨c.1, c.2.1, c.2.2, rem / 60, rem % 60, t.second⟩

namespace UKTimeZone

/-- Sunday-column entries of Python calendar.monthcalendar(year, month):
for each week row (Monday-first), the day number standing in the Sunday
column, which is 0 when that slot lies outside the month. Parameters:
w0 is the weekday of day 1, n the number of days in the month. -/
def lastColAux (w0 n : Nat) : List Nat :=
  (List.range ((n + w0 + 6) / 7)).map fun i =>
    let d := 7 * i + (7 - w0)
    if d ≤ n then d else 0

/-- The Sunday column of the month matrix for a given year and month. -/
def sundayColumn (y m : Nat) : List Nat :=
  lastColAux (pyWeekday y m 1) (daysInMonth y m)

/-- Embeds: max(week[-1] for week in calendar.monthcalendar(year, month)). -/
def last_sunday (y m : Nat) : Nat := (sundayColumn y m).foldl max 0

/-- UKTimeZone.dst from jubilee/lights.py: the DST adjustment in minutes
east of UTC. The window runs from 01:00 on the last Sunday of March to
01:00 on the last Sunday of October of the year of the argument. -/
def dst (t : PyDateTime) : Int :=
  let year := t.year
  let last_sunday_mar := last_sunday year 3
  let last_sunday_oct := last_sunday year 10
  let DST_START : PyDateTime := ⟨year, 3, last_sunday_mar, 1, 0, 0⟩
  let DST_END : PyDateTime := ⟨year, 10, last_sunday_oct, 1, 0, 0⟩
  if dtLeb DST_START t && dtLtb t DST_END then -60 else 0

/-- UKTimeZone.utcoffset: the fixed offset (zero) plus the DST adjustment. -/
def utcoffset (t : PyDateTime) : Int := 0 + dst t

/-- Legacy variant from top-level hue.py: the day number of the DST end
boundary is taken from March's last Sunday instead of October's. -/
def dst_hue (t : PyDateTime) : Int :=
  let year := t.year
  let last_sunday_mar := last_sunday year 3
  let DST_START : PyDateTime := ⟨year, 3, last_sunday_mar, 1, 0, 0⟩
  let DST_END : PyDateTime := ⟨year, 10, last_sunday_mar, 1, 0, 0⟩
  if dtLeb DST_START t && dtLtb t DST_END then -60 else 0

end UKTimeZone

/-- Modelled from the spec wording: the last Sunday of a month is the
greatest day of that month falling on a Sunday. -/
def spec_last_sunday (y m : Nat) : Nat :=
  Nat.findGreatest (fun d => pyWeekday y m d = 6) (daysInMonth y m)

/-- Modelled from the spec wording: an instant lies in the British Summer
Time window when it is on or after 01:00 on the last Sunday of March of its
year and strictly before 01:00 on the last Sunday of October of its year. -/
def spec_bst_window (t : PyDateTime) : Prop :=
  dtLeb ⟨t.year, 3, spec_last_sunday t.year 3, 1, 0, 0⟩ t = true ∧
  dtLtb t ⟨t.year, 10, spec_last_sunday t.year 10, 1, 0, 0⟩ = true

instance : DecidablePred spec_bst_window := fun t => by
  unfold spec_bst_window; infer_instance

/- ## PresenceSensor (jubilee/ibeacon.py) -/

/-- A beacon identity or raw message: a Python dict from string keys to
string values (keys unique). -/
abbrev Dict := List (String × String)

/-- Python dict key lookup. -/
def dictLookup (d : Dict) (k : String) : Option String :=
  (d.find? (fun kv => kv.1 == k)).map (fun kv => kv.2)

/-- Python dict equality: every binding of each dict is present in the other. -/
def dictEq (a b : Dict) : Bool :=
  (a.all fun kv => dictLookup b kv.1 == some kv.2) &&
  (b.all fun kv => dictLookup a kv.1 == some kv.2)

/-- One registered beacon record: owner, identity dict, last-seen instant
(integer seconds) and the presence flag (the record's Python key is the
word in). -/
structure Beacon where
  owner : String
  ID : Dict
  last_seen : Int
  isIn : Bool
deriving DecidableEq, Repr

/-- The required iBeacon identity keys. -/
def BEACON_ID_KEYS : List String := ["UUID", "Major", "Minor"]

/-- PresenceSensor get-beacon helper: first registered record whose ID dict
equals the argument, if any. -/
def get_beacon (l : List Beacon) (b : Dict) : Option Beacon :=
  l.find? (fun r => dictEq r.ID b)

/-- Index form of the get-beacon helper (the Python version returns the
record object itself, which is then mutated in place). -/
def get_beacon_idx (l : List Beacon) (b : Dict) : Option Nat :=
  l.findIdx? (fun r => dictEq r.ID b)

/-- PresenceSensor.register-beacon: rejects a dict missing a required ID
key with a message; appends a fresh record (not present, last seen now)
and returns a confirmation message when the identity is new; silently
falls through (returning Python None) when the identity is already
registered. -/
def register_beacon (l : List Beacon) (beacon : Dict) (owner : String) (now : Int) :
    List Beacon × Option String :=
  if BEACON_ID_KEYS.all (fun k => (dictLookup beacon k).isSome) then
    if (get_beacon l beacon).isNone then
      (l ++ [⟨owner, beacon, now, false⟩], some ("Registered beacon to owner " ++ owner))
    else (l, none)
  else (l, some "Failed to register beacon (missing or invalid ID)")

/-- PresenceSensor message handling, after the beacon identity dict has
been parsed from the advertisement: look up the registered record; when
found, refresh last seen and, when the record was away, flip it to
present and invoke the welcome callback with the owner (the returned list
of callback invocations). Unregistered identities are ignored. -/
def handle_message (l : List Beacon) (beacon_ID : Dict) (now : Int) :
    List Beacon × List String :=
  match get_beacon_idx l beacon_ID with
  | none => (l, [])
  | some i =>
    match l.get? i with
    | none => (l, [])
    | some b =>
      if b.isIn = false then
        (l.set i { b with last_seen := now, isIn := true }, [b.owner])
      else
        (l.set i { b with last_seen := now }, [])

/-- PresenceSensor.query with no owner argument: true when any registered
beacon is currently marked present. -/
def query (l : List Beacon) : Bool :=
  l.foldl (fun occupied b => if b.isIn then true else occupied) false

/-- Result of one iteration of the PresenceSensor sweep loop body. -/
structure SweepResult where
  beacons : List Beacon
  found : Nat
  calledAllLeft : Bool
deriving DecidableEq, Repr

/-- One iteration of the PresenceSensor loop body: every record not seen
for more than the scan timeout is marked away; records still fresh are
counted. The last-one-out callback fires when the fresh count is zero and
the count remembered from the previous iteration was positive. The
remembered count lives in a local variable that is unassigned (none) on
the first iteration; reading it then is a Python UnboundLocalError,
returned here as an error (the condition short-circuits, so the variable
is only read when the fresh count is zero). -/
def sweepOnce (l : List Beacon) (now scan_timeout : Int) (prev : Option Nat) :
    Except String SweepResult :=
  let step := l.foldl (fun (acc : List Beacon × Nat) b =>
    if now - b.last_seen > scan_timeout then (acc.1 ++ [{ b with isIn := false }], acc.2)
    else (acc.1 ++ [b], acc.2 + 1)) ([], 0)
  if step.2 = 0 then
    match prev with
    | none => .error "UnboundLocalError: beacons_found_last_loop referenced before assignment"
    | some p => .ok ⟨step.1, step.2, decide (0 < p)⟩
  else
    .ok ⟨step.1, step.2, false⟩

/- ## DaylightSensor (jubilee/lights.py) -/

/-- Outcome of the external sunrise-sunset.org lookup: success carries the
parsed sunrise and sunset times of day; the three failure kinds are
exactly the requests exceptions the code catches. -/
inductive Lookup
  | success (sunriseH sunriseM sunriseS sunsetH sunsetM sunsetS : Nat)
  | httpError
  | timeoutError
  | connectionError
deriving DecidableEq, Repr

/-- Whether a lookup outcome is one of the caught failures. -/
def Lookup.isFailure : Lookup → Bool
  | .success .. => false
  | _ => true

/-- DaylightSensor state: the cached daylight times and the instant after
which they are considered stale. -/
structure DaylightState where
  sunrise : PyDateTime
  sunset : PyDateTime
  update_daylight_due : PyDateTime
deriving DecidableEq, Repr

/-- DaylightSensor refresh: on success the parsed times of day are
anchored to the requested date, the next update is due 24 hours from now
and the new times are returned; on any caught failure the cached times
are returned unchanged and the due instant is not advanced. The state
component is what the caller stores back. -/
def get_daylight_times (st : DaylightState) (utcnow date : PyDateTime) (lk : Lookup) :
    DaylightState × (PyDateTime × PyDateTime) :=
  match lk with
  | .success h1 m1 s1 h2 m2 s2 =>
    let sunrise : PyDateTime := ⟨date.year, date.month, date.day, h1, m1, s1⟩
    let sunset : PyDateTime := ⟨date.year, date.month, date.day, h2, m2, s2⟩
    (⟨sunrise, sunset, addMinutes utcnow (24 * 60)⟩, (sunrise, sunset))
  | _ => (st, (st.sunrise, st.sunset))

/-- DaylightSensor.query: refresh when the cached times are older than 24
hours, re-anchor the cached times to the query day, and return whether
the query instant lies strictly between sunrise and sunset. -/
def dsQuery (st : DaylightState) (time utcnow : PyDateTime) (lk : Lookup) :
    DaylightState × Bool :=
  let st' := if dtLtb st.update_daylight_due time then (get_daylight_times st utcnow time lk).1 else st
  let sunrise := { st'.sunrise with year := time.year, month := time.month, day := time.day }
  let sunset := { st'.sunset with year := time.year, month := time.month, day := time.day }
  (st', dtLtb sunrise time && dtLtb time sunset)

/- ## Controller (jubilee/lights.py) -/

/-- The stored trigger time of a rule after load: either a datetime
(timer rules) or one of the strings sunrise or sunset. -/
inductive RuleTime
  | dt (t : PyDateTime)
  | sunrise
  | sunset
deriving DecidableEq, Repr

/-- A rule as loaded from the JSON rules file (the transition field plays
no role in control flow and is omitted). -/
structure PyRule where
  trigger : String
  time : RuleTime
  days : Option (List Char)
  action : String
  lights : List String
  offset : Option Int
deriving DecidableEq, Repr

/-- Outcome of one call to the bridge from the action handler. -/
inductive CallResult
  | ok
  | tyErr      -- raises TypeError, the only exception the handler catches
  | otherErr   -- raises any other exception
deriving DecidableEq, Repr

/-- How the action handler's try block ended. -/
inductive DispatchEnd
  | completed
  | caughtTypeError
  | raised
deriving DecidableEq, Repr

/-- Run the sequence of bridge calls of one action: calls run in order up
to and including the first failing call; returns the number of calls
attempted and how the block ended. -/
def runCalls : List CallResult → Nat × DispatchEnd
  | [] => (0, .completed)
  | .ok :: rest => ((runCalls rest).1 + 1, (runCalls rest).2)
  | .tyErr :: _ => (1, .caughtTypeError)
  | .otherErr :: _ => (1, .raised)

/-- Number of bridge calls the action handler makes for a rule: on and
off call the bridge once per named light, or once with the empty list
meaning all lights; scene recall is a single call; an unrecognised action
matches no branch and makes no call. -/
def numCalls (r : PyRule) : Nat :=
  if r.action == "on" || r.action == "off" then
    if r.lights.length == 0 then 1 else r.lights.length
  else if r.action == "scene" then 1
  else 0

/-- The planned outcomes for one rule's dispatch, padded with ok. -/
def callPlan (oc : Nat → List CallResult) (i : Nat) (r : PyRule) : List CallResult :=
  (List.range (numCalls r)).map fun j => (oc i).getD j .ok

/-- Why a tick aborted, as the uncaught Python exception it maps to. -/
inductive TickError
  | attributeError (i : Nat)   -- presence sensor attribute never set
  | malformedRule (i : Nat)    -- unbound trigger variable or string-plus-timedelta
  | indexError (i : Nat)       -- days mask shorter than the weekday index
  | dispatchRaised (i : Nat)   -- non-TypeError exception escaping the handler
deriving DecidableEq, Repr

/-- A dispatch event: which rule invoked the action handler, how many
bridge calls were attempted, and how the handler's try block ended. -/
structure RuleEvent where
  idx : Nat
  callsMade : Nat
  ended : DispatchEnd
deriving DecidableEq, Repr

/-- Controller state across ticks. -/
structure CtrlState where
  rules : List PyRule
  last_tick : PyDateTime
deriving DecidableEq, Repr

/-- Inputs consumed by one tick: the UTC now, the local today (used by
the re-anchoring and the weekday check), today's sunrise and sunset as
served by the daylight sensor, the presence sensor's registry snapshot
(none models a controller constructed without one, whose attribute was
never assigned), and the planned outcome of every bridge call, indexed
by rule. -/
structure TickInputs where
  now : PyDateTime
  today : PyDateTime
  sunriseT : PyDateTime
  sunsetT : PyDateTime
  presence : Option (List Beacon)
  oc : Nat → List CallResult

/-- Result of one tick. -/
structure TickResult where
  rules : List PyRule
  last_tick : PyDateTime
  triggered : List Nat
  events : List RuleEvent
  error : Option TickError
deriving DecidableEq, Repr

/-- Controller weekday filter: with no days mask every day passes (the
KeyError is caught); with a mask, the character at today's weekday index
must be the character 1; an out-of-range index is an uncaught IndexError.
-/
def check_weekday (r : PyRule) (w : Nat) : Except Unit Bool :=
  match r.days with
  | none => .ok true
  | some s =>
    match s.get? w with
    | some c => .ok (c == '1')
    | none => .error ()

/-- Trigger instant of a rule within a tick: daylight rules take today's
sunrise or sunset plus the optional offset in minutes; any other trigger
is a timer rule whose stored datetime is shifted by the UK UTC offset at
that datetime. A daylight rule whose stored time is a datetime leaves
the trigger variable unbound (the code only logs an error), and a timer
rule whose stored time is a string adds a string to a timedelta; both
abort the tick with an uncaught exception. -/
def trigger_time (r : PyRule) (sunriseT sunsetT : PyDateTime) : Except Unit PyDateTime :=
  if r.trigger == "daylight" then
    match r.time with
    | .sunrise => .ok (match r.offset with
        | some k => addMinutes sunriseT k
        | none => sunriseT)
    | .sunset => .ok (match r.offset with
        | some k => addMinutes sunsetT k
        | none => sunsetT)
    | .dt _ => .error ()
  else
    match r.time with
    | .dt t => .ok (addMinutes t (UKTimeZone.utcoffset t))
    | _ => .error ()

/-- Re-anchor one timer rule's stored datetime to today, keeping the
time of day (hour, minute, second) unchanged; rules whose stored time is
one of the strings sunrise or sunset are left alone. -/
def reanchorRule (today : PyDateTime) (r : PyRule) : PyRule :=
  match r.time with
  | .dt t => { r with
      time := .dt { t with year := today.year, month := today.month, day := today.day } }
  | _ => r

/-- Re-anchor every timer rule's stored datetime to today. -/
def update_times_to_today (rules : List PyRule) (today : PyDateTime) : List PyRule :=
  rules.map (reanchorRule today)

/-- Outcome of the loop body of Controller.loop-once for a single rule:
skip (weekday excluded or firing window missed), abort (uncaught
exception before the window test), or fired (window hit), the latter
carrying the dispatch event when the action handler was invoked and the
uncaught exception when one escaped after the window test. -/
inductive StepOut
  | skip
  | abort (e : TickError)
  | fired (ev : Option RuleEvent) (e : Option TickError)
deriving DecidableEq, Repr

/-- The loop body of Controller.loop-once for the rule at index i: apply
the weekday filter, compute the trigger instant, test the firing window
(strictly after the watermark and strictly before now), consult the
presence gate (an on or off action dispatches only when the registry
reports occupied; a scene action always dispatches), and run the action
handler on the planned call outcomes. -/
def ruleStep (lt now : PyDateTime) (w : Nat) (sr ss : PyDateTime)
    (presence : Option (List Beacon)) (oc : Nat → List CallResult)
    (i : Nat) (r : PyRule) : StepOut :=
  match check_weekday r w with
  | .error _ => .abort (.indexError i)
  | .ok false => .skip
  | .ok true =>
    match trigger_time r sr ss with
    | .error _ => .abort (.malformedRule i)
    | .ok t =>
      if dtLtb lt t && dtLtb t now then
        match presence with
        | none => .fired none (some (.attributeError i))
        | some ps =>
          if query ps || r.action == "scene" then
            if (runCalls (callPlan oc i r)).2 = .raised then
              .fired (some ⟨i, (runCalls (callPlan oc i r)).1, .raised⟩)
                (some (.dispatchRaised i))
            else
              .fired (some ⟨i, (runCalls (callPlan oc i r)).1, (runCalls (callPlan oc i r)).2⟩)
                none
          else .fired none none
      else .skip

/-- The rule loop of Controller.loop-once, processing the rule list in
declaration order starting at index i: recorded are the indices whose
window test passed, the dispatch events, and the first uncaught
exception, which stops the loop. -/
def processRules (lt now : PyDateTime) (w : Nat) (sr ss : PyDateTime)
    (presence : Option (List Beacon)) (oc : Nat → List CallResult) :
    Nat → List PyRule → List Nat × List RuleEvent × Option TickError
  | _, [] => ([], [], none)
  | i, r :: rest =>
    match ruleStep lt now w sr ss presence oc i r with
    | .skip => processRules lt now w sr ss presence oc (i + 1) rest
    | .abort e => ([], [], some e)
    | .fired ev (some e) => ([i], ev.toList, some e)
    | .fired ev none =>
      (i :: (processRules lt now w sr ss presence oc (i + 1) rest).1,
        ev.toList ++ (processRules lt now w sr ss presence oc (i + 1) rest).2.1,
        (processRules lt now w sr ss presence oc (i + 1) rest).2.2)

/-- Controller.loop-once: re-anchor the timer rules to today, run the
rule loop, and advance the watermark to now, except that an uncaught
exception aborts the tick before the watermark assignment is reached. -/
def loop_once (st : CtrlState) (inp : TickInputs) : TickResult :=
  let rules := update_times_to_today st.rules inp.today
  let w := pyWeekday inp.today.year inp.today.month inp.today.day
  let p := processRules st.last_tick inp.now w inp.sunriseT inp.sunsetT inp.presence inp.oc 0 rules
  { rules := rules
    last_tick := if p.2.2 = none then inp.now else st.last_tick
    triggered := p.1
    events := p.2.1
    error := p.2.2 }

/-- The firing test of one rule at one tick as the code implements it:
the weekday mask passes, the trigger instant is well defined, and it
lies strictly after the watermark and strictly before now. -/
def fires (lt now : PyDateTime) (w : Nat) (sr ss : PyDateTime) (r : PyRule) : Bool :=
  (match check_weekday r w with
   | .ok true => true
   | _ => false) &&
  (match trigger_time r sr ss with
   | .ok t => dtLtb lt t && dtLtb t now
   | .error _ => false)

/-- Run a sequence of ticks, as the driver loop in run.py does. -/
def runTicks (st : CtrlState) : List TickInputs → CtrlState
  | [] => st
  | inp :: rest => runTicks ⟨(loop_once st inp).rules, (loop_once st inp).last_tick⟩ rest

/-- Time of day stored in a rule. -/
def timeOfDay : RuleTime → Option (Nat × Nat × Nat)
  | .dt t => some (t.hour, t.minute, t.second)
  | .sunrise => none
  | .sunset => none

/- ## Concrete fixtures used by counterexamples and witnesses -/

/-- Demo identity dicts and registry used by concrete witnesses. -/
def demoId1 : Dict := [("UUID", "u1"), ("Major", "10004"), ("Minor", "54480")]

/-- A second demo identity. -/
def demoId2 : Dict := [("UUID", "u1"), ("Major", "10004"), ("Minor", "54481")]

/-- Registry obtained by registering the first demo identity. -/
def demoReg : List Beacon := (register_beacon [] demoId1 "Richard" 100).1

/-- A timer rule as loaded: every day at 06:30, all lights on. -/
def rule0 : PyRule := ⟨"timer", .dt ⟨2021, 1, 1, 6, 30, 0⟩, none, "on", [], none⟩

/-- The first demo rule re-anchored to 2021-01-02. -/
def rule0C : PyRule := ⟨"timer", .dt ⟨2021, 1, 2, 6, 30, 0⟩, none, "on", [], none⟩

/-- A second timer rule as loaded: every day at 06:45, recall a scene. -/
def rule1 : PyRule := ⟨"timer", .dt ⟨2021, 1, 1, 6, 45, 0⟩, none, "scene", [], none⟩

/-- The second demo rule re-anchored to 2021-01-02. -/
def rule1C : PyRule := ⟨"timer", .dt ⟨2021, 1, 2, 6, 45, 0⟩, none, "scene", [], none⟩

/-- A timer rule naming two lights, already anchored to 2021-01-02. -/
def ruleT : PyRule := ⟨"timer", .dt ⟨2021, 1, 2, 6, 30, 0⟩, none, "on", ["a", "b"], none⟩

/-- A beacon currently present, making the demo home occupied. -/
def beaconIn : Beacon := ⟨"Richard", demoId1, 0, true⟩

/-- The same beacon marked away. -/
def beaconOut : Beacon := ⟨"Richard", demoId1, 0, false⟩

/-- Controller state with the single demo rule, watermark at midnight. -/
def st0 : CtrlState := ⟨[rule0], ⟨2021, 1, 2, 0, 0, 0⟩⟩

/-- Controller state with both demo rules, watermark at midnight. -/
def st2 : CtrlState := ⟨[rule0, rule1], ⟨2021, 1, 2, 0, 0, 0⟩⟩

/-- The demo evaluation day, a Saturday in January (no DST). -/
def demoDay : PyDateTime := ⟨2021, 1, 2, 8, 0, 0⟩

/-- A tick at 07:00 with the home occupied and every bridge call fine. -/
def inpA : TickInputs :=
  ⟨⟨2021, 1, 2, 7, 0, 0⟩, demoDay, ⟨2021, 1, 2, 8, 6, 0⟩, ⟨2021, 1, 2, 16, 1, 0⟩,
    some [beaconIn], fun _ => []⟩

/-- The same tick but every bridge call raises a non-TypeError. -/
def inpB : TickInputs := { inpA with oc := fun _ => [.otherErr] }

/-- A tick whose now equals the demo rule's trigger instant exactly. -/
def inpC : TickInputs := { inpA with now := ⟨2021, 1, 2, 6, 30, 0⟩ }

/-- A tick where only the first rule's dispatch raises a non-TypeError. -/
def inpD : TickInputs := { inpA with oc := fun i => if i = 0 then [.otherErr] else [] }

/-- A tick with the home unoccupied. -/
def inpE : TickInputs := { inpA with presence := some [beaconOut] }

/-- Bridge call outcomes where the first rule's first call raises a
TypeError and every other call succeeds. -/
def ocT : Nat → List CallResult := fun i => if i = 0 then [.tyErr] else []

/-- Cached daylight state from the previous day, a refresh now being due. -/
def dsDemo : DaylightState :=
  ⟨⟨2021, 1, 1, 8, 6, 0⟩, ⟨2021, 1, 1, 16, 1, 0⟩, ⟨2021, 1, 2, 3, 0, 0⟩⟩

/-- A query instant past the due instant of the demo daylight state. -/
def dsQTime : PyDateTime := ⟨2021, 1, 2, 12, 0, 0⟩

end Jubilee

/- ## Theorems -/

namespace Jubilee

theorem dtLtb_irrefl (a : PyDateTime) : dtLtb a a = false := by
  simp [dtLtb]

theorem dtLtb_asymm {a b : PyDateTime} (h : dtLtb a b = true) : dtLtb b a = false := by
  rcases a with ⟨ay, amo, ad, ah, ami, as⟩
  rcases b with ⟨by_, bmo, bd, bh, bmi, bs⟩
  simp only [dtLtb] at h ⊢
  split_ifs at h ⊢ <;> simp_all <;> omega

theorem daysN_eq (y m d : Nat) (hd : 1 ≤ d) :
    daysN y m d = daysN y m 1 + (d - 1) := by
  simp only [daysN]
  omega

theorem pyWeekday_eq (y m d : Nat) (hd : 1 ≤ d) :
    pyWeekday y m d = (pyWeekday y m 1 + (d - 1)) % 7 := by
  simp only [pyWeekday, daysN_eq y m d hd]
  omega

theorem pyWeekday_lt_7 (y m d : Nat) : pyWeekday y m d < 7 :=
  Nat.mod_lt _ (by norm_num)

theorem lastColAux_max : ∀ c < 7,
    (UKTimeZone.lastColAux c 31).foldl max 0 =
      if 7 - c ≤ 3 then 7 - c + 28 else 7 - c + 21 := by decide

theorem last_sunday_spec (y m : Nat) (h31 : daysInMonth y m = 31) :
    pyWeekday y m (UKTimeZone.last_sunday y m) = 6 ∧
    25 ≤ UKTimeZone.last_sunday y m ∧ UKTimeZone.last_sunday y m ≤ 31 ∧
    ∀ d, UKTimeZone.last_sunday y m < d → d ≤ 31 → pyWeekday y m d ≠ 6 := by
  have hc : pyWeekday y m 1 < 7 := pyWeekday_lt_7 y m 1
  have hmax := lastColAux_max (pyWeekday y m 1) hc
  have hL : UKTimeZone.last_sunday y m =
      if 7 - pyWeekday y m 1 ≤ 3 then 7 - pyWeekday y m 1 + 28
      else 7 - pyWeekday y m 1 + 21 := by
    simp only [UKTimeZone.last_sunday, UKTimeZone.sundayColumn, h31, hmax]
  set c := pyWeekday y m 1 with hcdef
  have h25 : 25 ≤ UKTimeZone.last_sunday y m ∧ UKTimeZone.last_sunday y m ≤ 31 := by
    rw [hL]; split <;> omega
  refine ⟨?_, h25.1, h25.2, ?_⟩
  · rw [pyWeekday_eq y m _ (by omega), ← hcdef, hL]
    split <;> omega
  · intro d hd hd31
    rw [pyWeekday_eq y m d (by omega), ← hcdef]
    rw [hL] at hd
    split at hd <;> omega

theorem spec_last_sunday_eq (y m : Nat) (h31 : daysInMonth y m = 31) :
    spec_last_sunday y m = UKTimeZone.last_sunday y m := by
  obtain ⟨hsun, h25, h31', hmax⟩ := last_sunday_spec y m h31
  unfold spec_last_sunday
  rw [h31]
  exact Nat.findGreatest_eq_iff.mpr
    ⟨h31', fun _ => hsun, fun n hn hn31 => hmax n hn hn31⟩

/-- C8: for every datetime dt, UKTimeZone.utcoffset dt is minus 60 minutes
exactly when dt lies on or after 01:00 on the last Sunday of March of dt's
year and strictly before 01:00 on the last Sunday of October of dt's year,
and is zero otherwise; both boundaries use the last Sunday of their own
month (the end boundary comes from October, not March). -/
theorem utcoffset_bst_window (t : PyDateTime) :
    (UKTimeZone.utcoffset t = -60 ↔ spec_bst_window t) ∧
    (¬ spec_bst_window t → UKTimeZone.utcoffset t = 0) := by
  have h3 : daysInMonth t.year 3 = 31 := by norm_num [daysInMonth]
  have h10 : daysInMonth t.year 10 = 31 := by norm_num [daysInMonth]
  unfold UKTimeZone.utcoffset UKTimeZone.dst spec_bst_window
  rw [spec_last_sunday_eq t.year 3 h3, spec_last_sunday_eq t.year 10 h10]
  simp only [zero_add, Bool.and_eq_true]
  constructor
  · split <;> simp_all
  · intro h
    split
    · exact absurd (by simp_all) h
    · rfl

/-- Witness for C8 at a concrete mid-summer instant. -/
theorem utcoffset_bst_window_witness :
    UKTimeZone.utcoffset ⟨2025, 7, 1, 12, 0, 0⟩ = -60 :=
  (utcoffset_bst_window ⟨2025, 7, 1, 12, 0, 0⟩).1.mpr (by decide)

/-- The legacy hue.py variant disagrees with the packaged jubilee variant in
the gap between the two months' last Sundays (2025-10-28 lies after the last
Sunday of October, day 26, but before day 30, the last Sunday of March's day
number placed in October). -/
theorem dst_hue_divergence :
    UKTimeZone.dst_hue ⟨2025, 10, 28, 12, 0, 0⟩ = -60 ∧
    UKTimeZone.dst ⟨2025, 10, 28, 12, 0, 0⟩ = 0 := by decide

/-- C3: delivering a sighting to the registry is a no-op with no callback
for an unregistered identity; for a registered identity it refreshes the
last-seen instant, and flips the record to present with exactly one welcome
callback for the owner precisely when the record was away, with no callback
and no flag change when it was already present. -/
theorem handle_message_spec (l : List Beacon) (idd : Dict) (now : Int) :
    (get_beacon_idx l idd = none → handle_message l idd now = (l, [])) ∧
    (∀ i b, get_beacon_idx l idd = some i → l.get? i = some b →
      (b.isIn = false →
        handle_message l idd now =
          (l.set i { b with last_seen := now, isIn := true }, [b.owner])) ∧
      (b.isIn = true →
        handle_message l idd now = (l.set i { b with last_seen := now }, []))) := by
  refine ⟨fun h => by simp [handle_message, h], fun i b hidx hget => ?_⟩
  have hget' : l[i]? = some b := by simpa using hget
  constructor <;> intro hin <;> simp [handle_message, hidx, hget', hin]

/-- Witness for C3: a sighting of the first demo beacon, registered and
away, flips it to present and invokes the welcome callback once. -/
theorem handle_message_spec_witness :
    handle_message demoReg demoId1 500 =
      (demoReg.set 0 { owner := "Richard", ID := demoId1, last_seen := 500, isIn := true }, ["Richard"]) := by
  have h := (handle_message_spec demoReg demoId1 500).2 0
    ⟨"Richard", demoId1, 100, false⟩ (by decide) (by decide)
  exact h.1 (by decide)

/-- C6 counterexample: registering an already-registered identity is a
silent no-op: the registry is unchanged and the call returns Python None,
with no error of any kind surfaced (no DuplicateBeaconError exists in the
code). -/
theorem register_beacon_duplicate_counterexample :
    register_beacon demoReg demoId1 "Michelle" 200 = (demoReg, none) := by decide

/-- C6 amended: for a beacon dict carrying all required ID keys,
registering a duplicate identity leaves the registry unchanged and
returns None (silently ignored, no error raised), while registering a
fresh identity appends a record with the present flag false and last seen
set to the registration instant. -/
theorem register_beacon_spec (l : List Beacon) (beacon : Dict) (owner : String) (now : Int)
    (hkeys : BEACON_ID_KEYS.all (fun k => (dictLookup beacon k).isSome) = true) :
    ((get_beacon l beacon).isSome = true →
      register_beacon l beacon owner now = (l, none)) ∧
    (get_beacon l beacon = none →
      register_beacon l beacon owner now =
        (l ++ [⟨owner, beacon, now, false⟩],
          some ("Registered beacon to owner " ++ owner))) := by
  constructor <;> intro h
  · obtain ⟨x, hx⟩ := Option.isSome_iff_exists.mp h
    simp [register_beacon, hkeys, hx]
  · simp [register_beacon, hkeys, h]

/-- Witness for C6 amended: duplicate and fresh registration on the demo
registry. -/
theorem register_beacon_spec_witness :
    register_beacon demoReg demoId1 "Michelle" 200 = (demoReg, none) ∧
    register_beacon demoReg demoId2 "Michelle" 200 =
      (demoReg ++ [⟨"Michelle", demoId2, 200, false⟩],
        some ("Registered beacon to owner " ++ "Michelle")) :=
  ⟨(register_beacon_spec demoReg demoId1 "Michelle" 200 (by decide)).1 (by decide),
   (register_beacon_spec demoReg demoId2 "Michelle" 200 (by decide)).2 (by decide)⟩

/-- C2: the first pass of the sweep loop does not complete without error
whenever it finds no fresh beacon: with an empty registry, or with a
registered beacon that was never sighted within the timeout, the loop
body reads the unassigned local variable holding the previous count and
raises UnboundLocalError, killing the sweep thread, so the all-left
callback can never fire. Moreover the loop counts fresh records rather
than present ones: a never-present beacon going stale triggers the
all-left callback without any occupied-to-vacant transition. -/
theorem loop_once_rules (st : CtrlState) (inp : TickInputs) :
    (loop_once st inp).rules = update_times_to_today st.rules inp.today := rfl

theorem loop_once_triggered (st : CtrlState) (inp : TickInputs) :
    (loop_once st inp).triggered =
      (processRules st.last_tick inp.now
        (pyWeekday inp.today.year inp.today.month inp.today.day)
        inp.sunriseT inp.sunsetT inp.presence inp.oc 0
        (update_times_to_today st.rules inp.today)).1 := rfl

theorem loop_once_events (st : CtrlState) (inp : TickInputs) :
    (loop_once st inp).events =
      (processRules st.last_tick inp.now
        (pyWeekday inp.today.year inp.today.month inp.today.day)
        inp.sunriseT inp.sunsetT inp.presence inp.oc 0
        (update_times_to_today st.rules inp.today)).2.1 := rfl

theorem loop_once_error (st : CtrlState) (inp : TickInputs) :
    (loop_once st inp).error =
      (processRules st.last_tick inp.now
        (pyWeekday inp.today.year inp.today.month inp.today.day)
        inp.sunriseT inp.sunsetT inp.presence inp.oc 0
        (update_times_to_today st.rules inp.today)).2.2 := rfl

theorem loop_once_last_tick (st : CtrlState) (inp : TickInputs) :
    (loop_once st inp).last_tick =
      if (processRules st.last_tick inp.now
        (pyWeekday inp.today.year inp.today.month inp.today.day)
        inp.sunriseT inp.sunsetT inp.presence inp.oc 0
        (update_times_to_today st.rules inp.today)).2.2 = none
      then inp.now else st.last_tick := rfl

theorem ruleStep_skip_fires {lt now : PyDateTime} {w : Nat} {sr ss : PyDateTime}
    {presence : Option (List Beacon)} {oc : Nat → List CallResult} {i : Nat} {r : PyRule}
    (h : ruleStep lt now w sr ss presence oc i r = .skip) :
    fires lt now w sr ss r = false := by
  unfold ruleStep at h
  unfold fires
  repeat' split at h
  all_goals simp_all

theorem ruleStep_fired_fires {lt now : PyDateTime} {w : Nat} {sr ss : PyDateTime}
    {presence : Option (List Beacon)} {oc : Nat → List CallResult} {i : Nat} {r : PyRule}
    {ev : Option RuleEvent} {e : Option TickError}
    (h : ruleStep lt now w sr ss presence oc i r = .fired ev e) :
    fires lt now w sr ss r = true := by
  unfold ruleStep at h
  unfold fires
  repeat' split at h
  all_goals simp_all

theorem ruleStep_fired_window {lt now : PyDateTime} {w : Nat} {sr ss : PyDateTime}
    {presence : Option (List Beacon)} {oc : Nat → List CallResult} {i : Nat} {r : PyRule}
    {ev : Option RuleEvent} {e : Option TickError}
    (h : ruleStep lt now w sr ss presence oc i r = .fired ev e) :
    ∃ t, trigger_time r sr ss = .ok t ∧ dtLtb lt t = true ∧ dtLtb t now = true := by
  unfold ruleStep at h
  repeat' split at h
  all_goals simp_all

theorem ruleStep_event_idx {lt now : PyDateTime} {w : Nat} {sr ss : PyDateTime}
    {presence : Option (List Beacon)} {oc : Nat → List CallResult} {i : Nat} {r : PyRule}
    {ev : RuleEvent} {e : Option TickError}
    (h : ruleStep lt now w sr ss presence oc i r = .fired (some ev) e) :
    ev.idx = i := by
  unfold ruleStep at h
  repeat' split at h
  all_goals simp_all
  all_goals (obtain ⟨h1, h2⟩ := h; rw [← h1])

theorem ruleStep_dispatched_gate {lt now : PyDateTime} {w : Nat} {sr ss : PyDateTime}
    {presence : Option (List Beacon)} {oc : Nat → List CallResult} {i : Nat} {r : PyRule}
    {ev : RuleEvent} {e : Option TickError}
    (h : ruleStep lt now w sr ss presence oc i r = .fired (some ev) e) :
    ∃ ps, presence = some ps ∧ (query ps || r.action == "scene") = true := by
  unfold ruleStep at h
  repeat' split at h
  all_goals simp_all

theorem ruleStep_suppressed_gate {lt now : PyDateTime} {w : Nat} {sr ss : PyDateTime}
    {presence : Option (List Beacon)} {oc : Nat → List CallResult} {i : Nat} {r : PyRule}
    (h : ruleStep lt now w sr ss presence oc i r = .fired none none) :
    ∃ ps, presence = some ps ∧ (query ps || r.action == "scene") = false := by
  unfold ruleStep at h
  repeat' split at h
  all_goals simp_all

theorem runCalls_spec : ∀ ocs : List CallResult,
    (runCalls ocs).1 ≤ ocs.length ∧
    ((runCalls ocs).2 ≠ .completed →
      (runCalls ocs).1 = (ocs.takeWhile (fun c => c == .ok)).length + 1) := by
  intro ocs
  induction ocs with
  | nil => simp [runCalls]
  | cons c rest ih =>
    cases c with
    | ok =>
      refine ⟨by simpa [runCalls] using Nat.succ_le_succ ih.1, fun h => ?_⟩
      simp only [runCalls] at h ⊢
      rw [ih.2 h]
      simp [List.takeWhile_cons]
    | tyErr => simp [runCalls, List.takeWhile_cons]
    | otherErr => simp [runCalls, List.takeWhile_cons]

theorem get?_cons_shift (r : PyRule) (rest : List PyRule) (i j : Nat) (hij : i < j) :
    (r :: rest).get? (j - i) = rest.get? (j - (i + 1)) := by
  have h : j - i = (j - (i + 1)) + 1 := by omega
  rw [h]
  rfl

theorem processRules_lb (lt now : PyDateTime) (w : Nat) (sr ss : PyDateTime)
    (presence : Option (List Beacon)) (oc : Nat → List CallResult) :
    ∀ (rs : List PyRule) (i : Nat),
      (∀ j ∈ (processRules lt now w sr ss presence oc i rs).1, i ≤ j) ∧
      (∀ ev ∈ (processRules lt now w sr ss presence oc i rs).2.1, i ≤ ev.idx) := by
  intro rs
  induction rs with
  | nil => intro i; constructor <;> intro x hx <;> simp [processRules] at hx
  | cons r rest ih =>
    intro i
    cases hstep : ruleStep lt now w sr ss presence oc i r with
    | skip =>
      refine ⟨fun j hj => ?_, fun ev hev => ?_⟩
      · simp only [processRules, hstep] at hj
        exact Nat.le_of_succ_le ((ih (i + 1)).1 j hj)
      · simp only [processRules, hstep] at hev
        exact Nat.le_of_succ_le ((ih (i + 1)).2 ev hev)
    | abort e =>
      constructor <;> intro x hx <;> simp [processRules, hstep] at hx
    | fired ev e =>
      cases e with
      | some e1 =>
        refine ⟨fun j hj => ?_, fun ev1 hev => ?_⟩
        · simp only [processRules, hstep] at hj
          simp at hj
          omega
        · simp only [processRules, hstep] at hev
          cases ev with
          | none => simp at hev
          | some ev0 =>
            simp at hev
            subst hev
            exact le_of_eq (ruleStep_event_idx hstep).symm
      | none =>
        refine ⟨fun j hj => ?_, fun ev1 hev => ?_⟩
        · simp only [processRules, hstep] at hj
          rcases List.mem_cons.mp hj with rfl | hj1
          · exact le_refl _
          · exact Nat.le_of_succ_le ((ih (i + 1)).1 j hj1)
        · simp only [processRules, hstep] at hev
          rcases List.mem_append.mp hev with hev1 | hev1
          · cases ev with
            | none => simp at hev1
            | some ev0 =>
              simp at hev1
              subst hev1
              exact le_of_eq (ruleStep_event_idx hstep).symm
          · exact Nat.le_of_succ_le ((ih (i + 1)).2 ev1 hev1)

theorem processRules_nodup (lt now : PyDateTime) (w : Nat) (sr ss : PyDateTime)
    (presence : Option (List Beacon)) (oc : Nat → List CallResult) :
    ∀ (rs : List PyRule) (i : Nat),
      (processRules lt now w sr ss presence oc i rs).1.Nodup := by
  intro rs
  induction rs with
  | nil => intro i; simp [processRules]
  | cons r rest ih =>
    intro i
    cases hstep : ruleStep lt now w sr ss presence oc i r with
    | skip => simp only [processRules, hstep]; exact ih (i + 1)
    | abort e => simp [processRules, hstep]
    | fired ev e =>
      cases e with
      | some e1 => simp [processRules, hstep]
      | none =>
        simp only [processRules, hstep]
        refine List.nodup_cons.mpr ⟨fun hmem => ?_, ih (i + 1)⟩
        have := (processRules_lb lt now w sr ss presence oc rest (i + 1)).1 i hmem
        omega

theorem processRules_triggered_iff (lt now : PyDateTime) (w : Nat) (sr ss : PyDateTime)
    (presence : Option (List Beacon)) (oc : Nat → List CallResult) :
    ∀ (rs : List PyRule) (i : Nat),
      (processRules lt now w sr ss presence oc i rs).2.2 = none →
      ∀ j, (j ∈ (processRules lt now w sr ss presence oc i rs).1 ↔
        i ≤ j ∧ ∃ r, rs.get? (j - i) = some r ∧ fires lt now w sr ss r = true) := by
  intro rs
  induction rs with
  | nil => intro i _ j; simp [processRules]
  | cons r rest ih =>
    intro i herr j
    cases hstep : ruleStep lt now w sr ss presence oc i r with
    | skip =>
      simp only [processRules, hstep] at herr ⊢
      rw [ih (i + 1) herr j]
      constructor
      · rintro ⟨h1, r1, hr1, hf⟩
        refine ⟨by omega, r1, ?_, hf⟩
        rw [get?_cons_shift r rest i j (by omega)]
        exact hr1
      · rintro ⟨h1, r1, hr1, hf⟩
        rcases Nat.eq_or_lt_of_le h1 with heq | hlt
        · exfalso
          subst heq
          rw [Nat.sub_self] at hr1
          have hrr : r1 = r := by simpa using hr1.symm
          subst hrr
          rw [ruleStep_skip_fires hstep] at hf
          exact Bool.noConfusion hf
        · exact ⟨by omega, r1, by rwa [get?_cons_shift r rest i j hlt] at hr1, hf⟩
    | abort e => simp [processRules, hstep] at herr
    | fired ev e =>
      cases e with
      | some e1 => simp [processRules, hstep] at herr
      | none =>
        simp only [processRules, hstep] at herr ⊢
        rw [List.mem_cons, ih (i + 1) herr j]
        constructor
        · rintro (rfl | ⟨h1, r1, hr1, hf⟩)
          · exact ⟨le_refl j, r, by rw [Nat.sub_self]; rfl, ruleStep_fired_fires hstep⟩
          · exact ⟨by omega, r1,
              by rw [get?_cons_shift r rest i j (by omega)]; exact hr1, hf⟩
        · rintro ⟨h1, r1, hr1, hf⟩
          rcases Nat.eq_or_lt_of_le h1 with heq | hlt
          · exact Or.inl heq.symm
          · exact Or.inr ⟨by omega, r1,
              by rwa [get?_cons_shift r rest i j hlt] at hr1, hf⟩

theorem processRules_events_iff (lt now : PyDateTime) (w : Nat) (sr ss : PyDateTime)
    (presence : Option (List Beacon)) (oc : Nat → List CallResult) :
    ∀ (rs : List PyRule) (i : Nat),
      (processRules lt now w sr ss presence oc i rs).2.2 = none →
      ∀ j, ((∃ ev ∈ (processRules lt now w sr ss presence oc i rs).2.1, ev.idx = j) ↔
        (j ∈ (processRules lt now w sr ss presence oc i rs).1 ∧
          ∃ ps r1, presence = some ps ∧ rs.get? (j - i) = some r1 ∧
            (query ps || r1.action == "scene") = true)) := by
  intro rs
  induction rs with
  | nil => intro i _ j; simp [processRules]
  | cons r rest ih =>
    intro i herr j
    cases hstep : ruleStep lt now w sr ss presence oc i r with
    | skip =>
      simp only [processRules, hstep] at herr ⊢
      rw [ih (i + 1) herr j]
      constructor
      · rintro ⟨hmem, ps, r1, hps, hr1, hg⟩
        have hij := (processRules_lb lt now w sr ss presence oc rest (i + 1)).1 j hmem
        exact ⟨hmem, ps, r1, hps,
          by rw [get?_cons_shift r rest i j (by omega)]; exact hr1, hg⟩
      · rintro ⟨hmem, ps, r1, hps, hr1, hg⟩
        have hij := (processRules_lb lt now w sr ss presence oc rest (i + 1)).1 j hmem
        exact ⟨hmem, ps, r1, hps,
          by rwa [get?_cons_shift r rest i j (by omega)] at hr1, hg⟩
    | abort e => simp [processRules, hstep] at herr
    | fired ev e =>
      cases e with
      | some e1 => simp [processRules, hstep] at herr
      | none =>
        simp only [processRules, hstep] at herr ⊢
        by_cases hji : j = i
        · subst hji
          cases ev with
          | some ev0 =>
            have hidx := ruleStep_event_idx hstep
            obtain ⟨ps, hps, hg⟩ := ruleStep_dispatched_gate hstep
            constructor
            · intro _
              exact ⟨List.mem_cons_self j _,
                ps, r, hps, by rw [Nat.sub_self]; rfl, hg⟩
            · intro _
              exact ⟨ev0, by simp, hidx⟩
          | none =>
            obtain ⟨ps, hps, hg⟩ := ruleStep_suppressed_gate hstep
            constructor
            · rintro ⟨ev1, hev1, hidx⟩
              simp only [Option.toList, List.nil_append] at hev1
              have := (processRules_lb lt now w sr ss presence oc rest (j + 1)).2 ev1 hev1
              omega
            · rintro ⟨hmem, ps1, r1, hps1, hr1, hg1⟩
              rw [hps] at hps1
              cases hps1
              rw [Nat.sub_self] at hr1
              have hrr : r1 = r := by simpa using hr1.symm
              subst hrr
              rw [hg1] at hg
              exact Bool.noConfusion hg
        · constructor
          · rintro ⟨ev1, hev1, hidx⟩
            rcases List.mem_append.mp hev1 with h1 | h1
            · exfalso
              cases ev with
              | none => simp at h1
              | some ev0 =>
                simp at h1
                subst h1
                have := ruleStep_event_idx hstep
                omega
            · obtain ⟨hmem, ps, r1, hps, hr1, hg⟩ := (ih (i + 1) herr j).mp ⟨ev1, h1, hidx⟩
              have hij := (processRules_lb lt now w sr ss presence oc rest (i + 1)).1 j hmem
              exact ⟨List.mem_cons_of_mem _ hmem, ps, r1, hps,
                by rw [get?_cons_shift r rest i j (by omega)]; exact hr1, hg⟩
          · rintro ⟨hmem, ps, r1, hps, hr1, hg⟩
            rcases List.mem_cons.mp hmem with heq | hmem1
            · exact absurd heq hji
            · have hij := (processRules_lb lt now w sr ss presence oc rest (i + 1)).1 j hmem1
              obtain ⟨ev1, hev1, hidx⟩ := (ih (i + 1) herr j).mpr ⟨hmem1, ps, r1, hps,
                by rwa [get?_cons_shift r rest i j (by omega)] at hr1, hg⟩
              exact ⟨ev1, List.mem_append_right _ hev1, hidx⟩

theorem processRules_same_instant (now : PyDateTime) (w : Nat) (sr ss : PyDateTime)
    (presence : Option (List Beacon)) (oc : Nat → List CallResult) :
    ∀ (rs : List PyRule) (i : Nat),
      (processRules now now w sr ss presence oc i rs).1 = [] := by
  intro rs
  induction rs with
  | nil => intro i; simp [processRules]
  | cons r rest ih =>
    intro i
    cases hstep : ruleStep now now w sr ss presence oc i r with
    | skip => simp only [processRules, hstep]; exact ih (i + 1)
    | abort e => simp [processRules, hstep]
    | fired ev e =>
      exfalso
      obtain ⟨t, _, h1, h2⟩ := ruleStep_fired_window hstep
      have hcontra := dtLtb_asymm h1
      rw [h2] at hcontra
      exact Bool.noConfusion hcontra

theorem first_sweep_unbound_local :
    sweepOnce [] 1000 300 none =
      .error "UnboundLocalError: beacons_found_last_loop referenced before assignment" ∧
    sweepOnce [⟨"Richard", demoId1, 0, false⟩] 1000 300 none =
      .error "UnboundLocalError: beacons_found_last_loop referenced before assignment" ∧
    sweepOnce [⟨"Richard", demoId1, 0, false⟩] 400 300 (some 1) =
      .ok ⟨[⟨"Richard", demoId1, 0, false⟩], 0, true⟩ :=
  ⟨rfl, rfl, rfl⟩


/-- C1 amended: for a tick that completes without an uncaught exception,
a rule fires exactly when its weekday mask passes and its day-anchored
trigger instant t satisfies last-tick < t and t < now, both strict: a
rule whose trigger instant equals now does not fire on that tick, and
one whose trigger instant equals last-tick does not fire either. -/
theorem loop_once_fires_iff (st : CtrlState) (inp : TickInputs)
    (herr : (loop_once st inp).error = none) (j : Nat) :
    j ∈ (loop_once st inp).triggered ↔
      ∃ r, (update_times_to_today st.rules inp.today).get? j = some r ∧
        fires st.last_tick inp.now
          (pyWeekday inp.today.year inp.today.month inp.today.day)
          inp.sunriseT inp.sunsetT r = true := by
  rw [loop_once_error] at herr
  rw [loop_once_triggered,
    processRules_triggered_iff _ _ _ _ _ _ _ _ _ herr j]
  simp

/-- Witness for C1: the 06:30 rule fires at the 07:00 demo tick. -/
theorem loop_once_fires_iff_witness :
    0 ∈ (loop_once st0 inpA).triggered :=
  (loop_once_fires_iff st0 inpA (by decide) 0).mpr ⟨rule0C, by decide, by decide⟩

/-- C1 counterexample: a tick whose now equals the rule's day-anchored
trigger instant completes without error yet fires nothing, although the
trigger instant lies inside the half-open window from last-tick
(exclusive) to now (inclusive). -/
theorem fire_at_now_counterexample :
    update_times_to_today st0.rules inpC.today = [rule0C] ∧
    trigger_time rule0C inpC.sunriseT inpC.sunsetT = .ok inpC.now ∧
    dtLtb st0.last_tick inpC.now = true ∧
    (loop_once st0 inpC).error = none ∧
    (loop_once st0 inpC).triggered = [] :=
  ⟨by decide, rfl, by decide, by decide, by decide⟩

/-- C4 amended: when the first tick completes without an uncaught
exception the watermark advances to now, so a second tick with the same
now fires nothing, and within one tick each rule fires at most once, so
each rule fires at most once in total across the two calls. An uncaught
dispatch exception aborts the tick before the watermark assignment, in
which case re-ticking can fire the same rule again (see the
counterexample). -/
theorem watermark_idempotent (st st1 : CtrlState) (inp inp2 : TickInputs)
    (h1 : (loop_once st inp).error = none)
    (hst1 : st1 = ⟨(loop_once st inp).rules, (loop_once st inp).last_tick⟩)
    (h2 : inp2.now = inp.now) :
    (loop_once st1 inp2).triggered = [] ∧
    (loop_once st inp).triggered.Nodup := by
  have hlt : (loop_once st inp).last_tick = inp.now := by
    rw [loop_once_last_tick]
    rw [loop_once_error] at h1
    rw [h1]
    rfl
  have hlt1 : st1.last_tick = inp.now := by rw [hst1]; exact hlt
  constructor
  · rw [loop_once_triggered, hlt1, h2]
    exact processRules_same_instant _ _ _ _ _ _ _ 0
  · rw [loop_once_triggered]
    exact processRules_nodup _ _ _ _ _ _ _ _ 0

/-- Witness for C4: re-ticking the demo state with the same now fires
nothing the second time. -/
theorem watermark_idempotent_witness :
    (loop_once ⟨(loop_once st0 inpA).rules, (loop_once st0 inpA).last_tick⟩ inpA).triggered = [] ∧
    (loop_once st0 inpA).triggered.Nodup :=
  watermark_idempotent st0 _ inpA inpA (by decide) rfl rfl

/-- C4 counterexample: a bridge failure other than TypeError escapes the
action handler, the tick aborts before the watermark assignment, and a
second tick with the same now dispatches the same rule again: the rule
fires twice in total and last-tick was not set unconditionally. -/
theorem watermark_not_unconditional_counterexample :
    (loop_once st0 inpB).error = some (.dispatchRaised 0) ∧
    (loop_once st0 inpB).last_tick = st0.last_tick ∧
    (loop_once st0 inpB).events = [⟨0, 1, .raised⟩] ∧
    inpB.now = inpA.now ∧
    (loop_once ⟨(loop_once st0 inpB).rules, (loop_once st0 inpB).last_tick⟩ inpA).events =
      [⟨0, 1, .completed⟩] ∧
    (loop_once ⟨(loop_once st0 inpB).rules, (loop_once st0 inpB).last_tick⟩ inpA).triggered =
      [0] := by
  decide

/-- C5: in a tick that completes without an uncaught exception, with a
presence registry configured, a firing rule with action on or off is
dispatched exactly when the registry reports occupied, and a firing
rule recalling a scene is dispatched regardless of occupancy. -/
theorem presence_gated_dispatch (st : CtrlState) (inp : TickInputs)
    (ps : List Beacon) (j : Nat) (r : PyRule)
    (herr : (loop_once st inp).error = none)
    (hps : inp.presence = some ps)
    (hr : (update_times_to_today st.rules inp.today).get? j = some r)
    (htrig : j ∈ (loop_once st inp).triggered) :
    ((r.action = "on" ∨ r.action = "off") →
      ((∃ ev ∈ (loop_once st inp).events, ev.idx = j) ↔ query ps = true)) ∧
    (r.action = "scene" → ∃ ev ∈ (loop_once st inp).events, ev.idx = j) := by
  rw [loop_once_error] at herr
  rw [loop_once_triggered] at htrig
  rw [loop_once_events,
    processRules_events_iff _ _ _ _ _ _ _ _ _ herr j]
  constructor
  · intro hact
    have hsc : (r.action == "scene") = false := by
      rcases hact with h | h <;> rw [h] <;> rfl
    constructor
    · rintro ⟨-, ps1, r1, hps1, hr1, hg⟩
      rw [hps] at hps1
      cases hps1
      rw [Nat.sub_zero] at hr1
      rw [hr] at hr1
      cases hr1
      rw [hsc, Bool.or_false] at hg
      exact hg
    · intro hq
      exact ⟨htrig, ps, r, hps, by rwa [Nat.sub_zero], by rw [hq]; rfl⟩
  · intro hscene
    refine ⟨htrig, ps, r, hps, by rwa [Nat.sub_zero], ?_⟩
    rw [hscene]
    simp

/-- Witness for C5: on the unoccupied demo tick, the on rule is firing
but not dispatched and the scene rule is dispatched. -/
theorem presence_gated_dispatch_witness :
    (¬ ∃ ev ∈ (loop_once st2 inpE).events, ev.idx = 0) ∧
    (∃ ev ∈ (loop_once st2 inpE).events, ev.idx = 1) := by
  constructor
  · intro hex
    have hq := ((presence_gated_dispatch st2 inpE [beaconOut] 0 rule0C
      (by decide) rfl (by decide) (by decide)).1 (Or.inl rfl)).mp hex
    exact absurd hq (by decide)
  · exact (presence_gated_dispatch st2 inpE [beaconOut] 1 rule1C
      (by decide) rfl (by decide) (by decide)).2 rfl

/-- C9 amended: the action handler catches only TypeError. A dispatch
ending in a caught TypeError does not stop the remaining rules of the
tick, while a dispatch raising any other exception aborts the loop with
the remaining rules unevaluated; and within a single action the bridge
calls stop at the first failing call, so the remaining targets of that
action are skipped even for a caught TypeError. -/
theorem dispatch_failure_isolation (lt now : PyDateTime) (w : Nat) (sr ss : PyDateTime)
    (presence : Option (List Beacon)) (oc : Nat → List CallResult)
    (i : Nat) (r : PyRule) (rest : List PyRule) (n : Nat) :
    (ruleStep lt now w sr ss presence oc i r = .fired (some ⟨i, n, .caughtTypeError⟩) none →
      processRules lt now w sr ss presence oc i (r :: rest) =
        (i :: (processRules lt now w sr ss presence oc (i + 1) rest).1,
          ⟨i, n, .caughtTypeError⟩ ::
            (processRules lt now w sr ss presence oc (i + 1) rest).2.1,
          (processRules lt now w sr ss presence oc (i + 1) rest).2.2)) ∧
    (ruleStep lt now w sr ss presence oc i r =
        .fired (some ⟨i, n, .raised⟩) (some (.dispatchRaised i)) →
      processRules lt now w sr ss presence oc i (r :: rest) =
        ([i], [⟨i, n, .raised⟩], some (.dispatchRaised i))) ∧
    (∀ ocs : List CallResult, (runCalls ocs).1 ≤ ocs.length ∧
      ((runCalls ocs).2 ≠ .completed →
        (runCalls ocs).1 = (ocs.takeWhile (fun c => c == .ok)).length + 1)) := by
  refine ⟨fun hstep => ?_, fun hstep => ?_, runCalls_spec⟩
  · simp [processRules, hstep, Option.toList]
  · simp [processRules, hstep, Option.toList]

/-- Witness for C9 amended: a first-target TypeError is caught, the
second target of the same action is skipped, and the next rule still
dispatches. -/
theorem dispatch_failure_isolation_witness :
    processRules ⟨2021, 1, 2, 0, 0, 0⟩ ⟨2021, 1, 2, 7, 0, 0⟩ 5
        ⟨2021, 1, 2, 8, 6, 0⟩ ⟨2021, 1, 2, 16, 1, 0⟩ (some [beaconIn]) ocT 0 [ruleT, rule1C] =
      ([0, 1], [⟨0, 1, .caughtTypeError⟩, ⟨1, 1, .completed⟩], none) := by
  rw [(dispatch_failure_isolation ⟨2021, 1, 2, 0, 0, 0⟩ ⟨2021, 1, 2, 7, 0, 0⟩ 5
      ⟨2021, 1, 2, 8, 6, 0⟩ ⟨2021, 1, 2, 16, 1, 0⟩ (some [beaconIn]) ocT 0 ruleT [rule1C] 1).1
    (by decide)]
  decide

/-- C9 counterexample: with two due rules, a non-TypeError failure while
dispatching the first aborts the tick, so the second rule, although
firing by the window test, is never evaluated or dispatched; and within
one action the first failing call already stops the remaining targets. -/
theorem dispatch_failure_counterexample :
    fires st2.last_tick inpD.now (pyWeekday 2021 1 2) inpD.sunriseT inpD.sunsetT rule1C = true ∧
    (loop_once st2 inpD).triggered = [0] ∧
    (loop_once st2 inpD).events = [⟨0, 1, .raised⟩] ∧
    (loop_once st2 inpD).error = some (.dispatchRaised 0) ∧
    runCalls [.tyErr, .ok] = (1, .caughtTypeError) := by
  decide

theorem update_times_get? (rules : List PyRule) (today : PyDateTime) (j : Nat) (r : PyRule)
    (h : rules.get? j = some r) :
    (update_times_to_today rules today).get? j = some (reanchorRule today r) := by
  have h1 : rules[j]? = some r := by rwa [← List.get?_eq_getElem?]
  simp [update_times_to_today, List.get?_eq_getElem?, List.getElem?_map, h1]

theorem reanchorRule_fields (today : PyDateTime) (r : PyRule) :
    (reanchorRule today r).trigger = r.trigger ∧ (reanchorRule today r).days = r.days ∧
    (reanchorRule today r).action = r.action ∧ (reanchorRule today r).lights = r.lights ∧
    (reanchorRule today r).offset = r.offset ∧
    timeOfDay (reanchorRule today r).time = timeOfDay r.time := by
  unfold reanchorRule
  rcases r with ⟨trig, time, days, act, lights, off⟩
  cases time <;> simp [timeOfDay]

theorem runTicks_preserves : ∀ (inps : List TickInputs) (st : CtrlState) (j : Nat) (r : PyRule),
    st.rules.get? j = some r →
    ∃ r1, (runTicks st inps).rules.get? j = some r1 ∧
      r1.trigger = r.trigger ∧ r1.days = r.days ∧ r1.action = r.action ∧
      r1.lights = r.lights ∧ r1.offset = r.offset ∧
      timeOfDay r1.time = timeOfDay r.time := by
  intro inps
  induction inps with
  | nil => intro st j r h; exact ⟨r, h, rfl, rfl, rfl, rfl, rfl, rfl⟩
  | cons inp rest ih =>
    intro st j r h
    have h1 : (loop_once st inp).rules.get? j = some (reanchorRule inp.today r) := by
      rw [loop_once_rules]
      exact update_times_get? st.rules inp.today j r h
    obtain ⟨r1, hr1, p1, p2, p3, p4, p5, p6⟩ :=
      ih ⟨(loop_once st inp).rules, (loop_once st inp).last_tick⟩ j (reanchorRule inp.today r) h1
    obtain ⟨q1, q2, q3, q4, q5, q6⟩ := reanchorRule_fields inp.today r
    exact ⟨r1, by simpa [runTicks] using hr1, by rw [p1, q1], by rw [p2, q2],
      by rw [p3, q3], by rw [p4, q4], by rw [p5, q5], by rw [p6, q6]⟩

/-- C10: re-anchoring replaces only the date of a timer rule's stored
datetime with the evaluation day's date, leaving hour, minute and second
untouched; and across any sequence of ticks every rule keeps its trigger
kind, weekday mask, action, targets, offset and declared time of day. -/
theorem timer_declared_time_invariant (st : CtrlState) (inps : List TickInputs)
    (j : Nat) (r : PyRule) (h : st.rules.get? j = some r) :
    (∀ inp t, r.time = .dt t →
      (loop_once st inp).rules.get? j =
        some { r with time := .dt ⟨inp.today.year, inp.today.month, inp.today.day,
          t.hour, t.minute, t.second⟩ }) ∧
    (∃ r1, (runTicks st inps).rules.get? j = some r1 ∧
      r1.trigger = r.trigger ∧ r1.days = r.days ∧ r1.action = r.action ∧
      r1.lights = r.lights ∧ r1.offset = r.offset ∧
      timeOfDay r1.time = timeOfDay r.time) := by
  refine ⟨fun inp t ht => ?_, runTicks_preserves inps st j r h⟩
  rw [loop_once_rules, update_times_get? st.rules inp.today j r h]
  unfold reanchorRule
  rw [ht]

/-- Witness for C10: after two demo ticks the rule still reads 06:30. -/
theorem timer_declared_time_invariant_witness :
    ∃ r1, (runTicks st0 [inpA, inpC]).rules.get? 0 = some r1 ∧
      r1.trigger = rule0.trigger ∧ r1.days = rule0.days ∧ r1.action = rule0.action ∧
      r1.lights = rule0.lights ∧ r1.offset = rule0.offset ∧
      timeOfDay r1.time = timeOfDay rule0.time :=
  (timer_declared_time_invariant st0 [inpA, inpC] 0 rule0 rfl).2

/-- C7: after a successful initialisation, a daylight refresh whose
lookup fails with a connection error, timeout or HTTP error keeps the
cached sunrise, sunset and due instant unchanged, and the query answer
is computed from the cached values re-anchored to the query day; no
exception reaches the caller (each caught failure kind is an explicit
lookup outcome and both functions are total on them). -/
theorem daylight_refresh_failure (st : DaylightState) (time utcnow : PyDateTime)
    (lk : Lookup) (hfail : lk.isFailure = true) :
    get_daylight_times st utcnow time lk = (st, (st.sunrise, st.sunset)) ∧
    dsQuery st time utcnow lk =
      (st, dtLtb { st.sunrise with year := time.year, month := time.month, day := time.day }
          time &&
        dtLtb time { st.sunset with year := time.year, month := time.month, day := time.day }) := by
  cases lk with
  | success h1 m1 s1 h2 m2 s2 => simp [Lookup.isFailure] at hfail
  | httpError => exact ⟨rfl, by simp only [dsQuery, get_daylight_times]; split <;> rfl⟩
  | timeoutError => exact ⟨rfl, by simp only [dsQuery, get_daylight_times]; split <;> rfl⟩
  | connectionError => exact ⟨rfl, by simp only [dsQuery, get_daylight_times]; split <;> rfl⟩

/-- Witness for C7: with the cached times from the previous day and a
refresh due, a timed-out lookup leaves the state unchanged and the query
still answers daylight from the stale cache. -/
theorem daylight_refresh_failure_witness :
    dsQuery dsDemo dsQTime dsQTime .timeoutError = (dsDemo, true) := by
  rw [(daylight_refresh_failure dsDemo dsQTime dsQTime .timeoutError rfl).2]
  decide


end Jubilee
